import Mathlib

/-!
Verification of the data-upload-and-query service (src/database.py and
src/main.py) against its specification.  The development shallowly embeds
the row store (sqlite table `data`, accessed through `insert_data_row` and
`get_data_by_id`) and the rule-based query resolver (the body of the
`ask_data_ai` endpoint) as executable Lean functions, and proves or refutes
the frozen claims about them.

Modelling conventions:
- JSON scalar values stored in a row are modelled by `Val`
  (string / number / boolean / null); a row's `row_data` dict is an
  association list `Fields` (lookup returns the first binding, as a dict
  with unique keys would).
- Python string operations are modelled directly: `s.lower()` is
  `lowerStr` (character-wise `Char.toLower`), and the `in` substring test
  is `substrOf` (plain substring containment, so the empty string is a
  substring of everything, as in Python).
- The sqlite layer can fail on any insert (the `except sqlite3.Error`
  branch of `insert_data_row`, which rolls back and returns `None`); this
  external nondeterminism is modelled by an explicit boolean failure
  oracle passed to the operation (and a per-record plan for batch upload).
- Python truthiness is modelled faithfully: `if found_item_name:` is false
  both for `None` and for the empty string, which is observable behaviour
  of the item-matching pass.
-/

namespace DataUploadQuery

/-- JSON scalar values that can appear in an uploaded row. -/
inductive Val where
  | vStr (s : String)
  | vNum (n : Int)
  | vBool (b : Bool)
  | vNull
deriving DecidableEq

/-- A row's field mapping (`row_data` dict), as an association list. -/
abbrev Fields := List (String × Val)

/-- Dict lookup: first binding for the key, if any. -/
def lookupField (fs : Fields) (k : String) : Option Val :=
  match fs with
  | [] => none
  | (k2, v) :: rest => if k2 = k then some v else lookupField rest k

/-- Python `k in row_data`. -/
def hasField (fs : Fields) (k : String) : Bool :=
  (lookupField fs k).isSome

/-- Boolean test: the first list is a leading segment of the second. -/
def leadsList (p s : List Char) : Bool :=
  match p, s with
  | [], _ => true
  | _ :: _, [] => false
  | a :: as, b :: bs => a == b && leadsList as bs

/-- Boolean substring containment on character lists. -/
def strSub (p : List Char) (s : List Char) : Bool :=
  match s with
  | [] => p.isEmpty
  | _ :: rest => leadsList p s || strSub p rest

/-- Python `needle in hay` on strings (plain substring containment). -/
def substrOf (needle hay : String) : Bool :=
  strSub needle.data hay.data

/-- Python `s.lower()`, modelled character-wise. -/
def lowerStr (s : String) : String :=
  String.mk (s.data.map Char.toLower)

/-- The fixed keyword table of `ask_data_ai` (src/main.py lines 264-271),
in its declared key order. -/
def attributeKeywords : List (String × List String) :=
  [("price", ["price", "cost", "value"]),
   ("quantity", ["quantity", "number", "amount"]),
   ("stock", ["stock", "inventory", "available"]),
   ("warehouse", ["warehouse", "location", "where"]),
   ("product_name", ["product", "item", "name"]),
   ("item_name", ["item", "name", "product"])]

/-- Whether some keyword of the list occurs in the question (the inner
keyword loop of the attribute pass; only existence is observable). -/
def keywordHit (q : String) (kws : List String) : Bool :=
  kws.any (fun k => substrOf k q)

/-- The attribute-pass scan over a (remaining) keyword table. -/
def findAttrGo (q : String) : List (String × List String) → Option String
  | [] => none
  | (attr, kws) :: rest => if keywordHit q kws then some attr else findAttrGo q rest

/-- The attribute match pass of `ask_data_ai` (src/main.py lines 287-293):
first table entry with a keyword occurring in the (lowercased) question. -/
def findAttribute (q : String) : Option String :=
  findAttrGo q attributeKeywords

/-- One step of the inner key loop of the item-name pass: the key must be
present with a string value whose lowercasing occurs in the question. -/
def tryNameKey (q : String) (fs : Fields) (k : String) : Option String :=
  match lookupField fs k with
  | some (Val.vStr s) => if substrOf (lowerStr s) q then some (lowerStr s) else none
  | _ => none

/-- The inner loop over `['item_name', 'product_name']` of the item-name
pass (src/main.py lines 278-283): first qualifying key of the row wins. -/
def rowItemMatch (q : String) (fs : Fields) : Option String :=
  match tryNameKey q fs "item_name" with
  | some v => some v
  | none => tryNameKey q fs "product_name"

/-- The outer row loop of the item-name pass (src/main.py lines 276-285).
The accumulator is the current value of `found_item_name`.  Note the
Python truthiness of the stop test `if found_item_name:` — a matched
empty string does NOT stop the scan, it only overwrites the accumulator. -/
def findItemLoop (q : String) (acc : Option String) : List Fields → Option String
  | [] => acc
  | fs :: rest =>
    match rowItemMatch q fs with
    | some v => if v = "" then findItemLoop q (some "") rest else some v
    | none => findItemLoop q acc rest

/-- The complete item-name match pass: `found_item_name` after the loop. -/
def findItemName (q : String) (rows : List Fields) : Option String :=
  findItemLoop q none rows

/-- Python truthiness of `found_item_name`: `None` and the empty string
both count as "no item matched" in all downstream tests. -/
def truthyItem : Option String → Option String
  | some s => if s = "" then none else some s
  | none => none

/-- The value-lookup loop of `ask_data_ai` (src/main.py lines 311-323):
`retrieved_value` stays `"Not found"` unless some row both matches the
item key and contains the attribute field; the loop only breaks when the
attribute field is present on an item-matching row. -/
def itemMatchRow (foundItem : String) (fs : Fields) : Bool :=
  (match lookupField fs "item_name" with
   | some (Val.vStr s) => lowerStr s == foundItem
   | _ => false) ||
  (match lookupField fs "product_name" with
   | some (Val.vStr s) => lowerStr s == foundItem
   | _ => false)

/-- The value-lookup scan itself (mirrors the loop body: continue both
when the row does not match the item and when it matches but lacks the
attribute field). -/
def valueLookup (foundItem foundAttr : String) : List Fields → Val
  | [] => Val.vStr "Not found"
  | fs :: rest =>
    if itemMatchRow foundItem fs then
      if hasField fs foundAttr then (lookupField fs foundAttr).getD (Val.vStr "Not found")
      else valueLookup foundItem foundAttr rest
    else valueLookup foundItem foundAttr rest

/-- Rendering of a raw value into the answer f-string (Python `str`). -/
def Val.render : Val → String
  | Val.vStr s => s
  | Val.vNum n => toString n
  | Val.vBool true => "True"
  | Val.vBool false => "False"
  | Val.vNull => "None"

/-- Answer when the store is empty (src/main.py line 261). -/
def noDataMsg : String :=
  "No data has been uploaded yet. Please upload a CSV first."

/-- Answer when neither item nor attribute matched (src/main.py line 298). -/
def genericMsg : String :=
  "I could not understand which item or attribute you are asking about. Please rephrase your question more directly (e.g., \x27What is the price of Apple?\x27)."

/-- Answer when an attribute matched but no item (src/main.py line 303). -/
def noItemMsg (attr : String) : String :=
  "I understand you are asking about \x27" ++ attr ++ "\x27, but I couldn\x27t identify the specific item. Please mention the item name (e.g., Apple, T-Shirt)."

/-- Answer when an item matched but no attribute (src/main.py line 308). -/
def noAttrMsg (item : String) : String :=
  "I understand you are asking about \x27" ++ item ++ "\x27, but I couldn\x27t identify what attribute (e.g., price, quantity, stock) you want to know. Please specify."

/-- Success answer (src/main.py line 326). -/
def successMsg (attr item : String) (v : Val) : String :=
  "The " ++ attr ++ " of " ++ item ++ " is: " ++ v.render

/-- Value-absent answer (src/main.py line 328). -/
def notFoundMsg (attr item : String) : String :=
  "I could not find the " ++ attr ++ " for " ++ item ++ " in the uploaded data."

/-- Rejection of an empty question (src/main.py line 254). -/
def emptyQuestionMsg : String :=
  "Please provide a \x27question\x27 in the request body."

/-- The ephemeral query result of the spec: the two match outcomes, the
retrieved raw value if any, and the user-facing answer text. -/
structure QueryResult where
  matchedItemKey : Option String
  matchedAttribute : Option String
  value : Option Val
  answer : String
deriving DecidableEq

/-- Value lookup plus final answer composition (src/main.py lines
311-328): the sentinel comparison against the string `"Not found"` is
kept exactly as in the source. -/
def lookupAnswer (item attr : String) (rows : List Fields) : QueryResult :=
  let v := valueLookup item attr rows
  if v = Val.vStr "Not found" then
    { matchedItemKey := some item, matchedAttribute := some attr,
      value := none, answer := notFoundMsg attr item }
  else
    { matchedItemKey := some item, matchedAttribute := some attr,
      value := some v, answer := successMsg attr item v }

/-- The resolver core of `ask_data_ai` (src/main.py lines 256-333), after
the empty-question guard: lowercase the question, return early on an
empty store, then dispatch on the truthiness of the two match results. -/
def resolve (question : String) (rows : List Fields) : QueryResult :=
  let q := lowerStr question
  if rows.isEmpty then
    { matchedItemKey := none, matchedAttribute := none, value := none, answer := noDataMsg }
  else
    match truthyItem (findItemName q rows), findAttribute q with
    | none, none =>
      { matchedItemKey := none, matchedAttribute := none, value := none, answer := genericMsg }
    | none, some attr =>
      { matchedItemKey := none, matchedAttribute := some attr, value := none,
        answer := noItemMsg attr }
    | some item, none =>
      { matchedItemKey := some item, matchedAttribute := none, value := none,
        answer := noAttrMsg item }
    | some item, some attr => lookupAnswer item attr rows

/-- The `ask_data_ai` endpoint: rejects an empty (lowercased) question
with HTTP 400 (src/main.py lines 252-254), otherwise resolves. -/
def askDataAI (question : String) (rows : List Fields) : Except String QueryResult :=
  if lowerStr question = "" then Except.error emptyQuestionMsg
  else Except.ok (resolve question rows)

/-- A persisted row of the `data` table (src/database.py lines 22-28);
`row_data` is stored as a JSON string, and `json.loads (json.dumps d) = d`
for scalar-valued dicts, so the round trip is modelled as the identity.
The `upload_timestamp` column is opaque wall-clock data and is omitted. -/
structure Row where
  id : Nat
  original_filename : String
  row_data : Fields
deriving DecidableEq

/-- The `data` table plus its AUTOINCREMENT counter (sqlite assigns
ids 1, 2, 3, ... and never reuses one). -/
structure Store where
  nextId : Nat
  rows : List Row
deriving DecidableEq

/-- A freshly initialised database (`init_db`): empty table, next id 1. -/
def Store.init : Store := { nextId := 1, rows := [] }

/-- The counter bound of sqlite AUTOINCREMENT: every stored id is below
the next id to be assigned.  Holds for every store reachable from
`Store.init` and makes id lookup unambiguous. -/
def Store.wfb (st : Store) : Bool :=
  st.rows.all (fun r => decide (r.id < st.nextId))

/-- `insert_data_row` (src/database.py lines 57-73).  The boolean oracle
`dbFail` selects the `except sqlite3.Error` branch, which rolls back and
returns `None`; on success the row is appended with the next id, which is
returned (`cursor.lastrowid`).  No validation of any kind is performed on
`row_data`. -/
def insert_data_row (dbFail : Bool) (filename : String) (rowData : Fields)
    (st : Store) : Option Nat × Store :=
  if dbFail then (none, st)
  else
    (some st.nextId,
     { nextId := st.nextId + 1,
       rows := st.rows ++ [{ id := st.nextId, original_filename := filename,
                             row_data := rowData }] })

/-- `get_data_by_id` (src/database.py lines 85-94): `fetchone` on a
`WHERE id = ?` query, i.e. the first row with that id, if any. -/
def get_data_by_id (itemId : Nat) (st : Store) : Option Row :=
  st.rows.find? (fun r => r.id == itemId)

/-- Python `pd.isnull` over the parsed batch: some record has a
missing/null value in some field (src/main.py line 180). -/
def batchHasNull (batch : List Fields) : Bool :=
  batch.any (fun fs => fs.any (fun kv => kv.2 == Val.vNull))

/-- The insertion loop of `upload_csv` (src/main.py lines 183-187): one
`insert_data_row` per record, consuming one bit of the db-failure plan
per call; `rows_inserted` is incremented unconditionally — the return
value of `insert_data_row` is never inspected. -/
def insertLoop (filename : String) : List Fields → List Bool → Store → Nat × Store
  | [], _, st => (0, st)
  | fs :: rest, plan, st =>
    let step := insert_data_row (plan.headD false) filename fs st
    let next := insertLoop filename rest plan.tail step.2
    (next.1 + 1, next.2)

/-- The HTTP 400 detail for a batch with missing values (src/main.py
line 181). -/
def csvNullMsg : String :=
  "CSV contains missing values. Please ensure all cells are filled."

/-- The success message of `upload_csv` (src/main.py line 191). -/
def uploadMsg (filename : String) (n : Nat) : String :=
  "CSV file \x27" ++ filename ++ "\x27 uploaded and " ++ toString n ++ " rows stored successfully."

/-- The core of the `upload_csv` endpoint (src/main.py lines 176-192):
whole-batch null validation before any insert, then the insertion loop,
then the success response quoting the loop counter. -/
def upload_csv (plan : List Bool) (filename : String) (batch : List Fields)
    (st : Store) : Except String (String × Store) :=
  if batchHasNull batch then Except.error csvNullMsg
  else
    let res := insertLoop filename batch plan st
    Except.ok (uploadMsg filename res.1, res.2)

/-! ## Concrete rows used by counterexamples -/

/-- A row for apples that records only a quantity. -/
def rowQty : Fields := [("item_name", Val.vStr "apple"), ("quantity", Val.vNum 10)]

/-- A second row for apples that records a price. -/
def rowPrice : Fields := [("item_name", Val.vStr "apple"), ("price", Val.vNum 5)]

/-- A row whose `item_name` is the empty string. -/
def rowEmptyName : Fields := [("item_name", Val.vStr "")]

/-- A row naming an apple. -/
def rowApple : Fields := [("item_name", Val.vStr "apple")]

/-- A row naming a banana. -/
def rowBanana : Fields := [("item_name", Val.vStr "banana")]

/-! ## C1: the value-lookup scan -/

/-- C1 counterexample: in the value-lookup phase the first item-matching
row (`rowQty`) lacks the `price` field, yet the retrieved value is 5,
taken from the LATER item-matching row `rowPrice` — so scanning does
continue past the first item-matching row, refuting the claim that the
first item match wins unconditionally and the answer would be not-found. -/
theorem c1_counterexample :
    itemMatchRow "apple" rowQty = true ∧
    hasField rowQty "price" = false ∧
    valueLookup "apple" "price" [rowQty, rowPrice] = Val.vNum 5 := by
  refine ⟨rfl, rfl, rfl⟩

/-- The amended lookup rule, stated from the corrected reading: the value
comes from the first row that both matches the item key and contains the
attribute field; item-matching rows lacking the field are skipped. -/
def valueLookupFirstWithAttr (foundItem foundAttr : String) (rows : List Fields) : Val :=
  match rows.find? (fun fs => itemMatchRow foundItem fs && hasField fs foundAttr) with
  | some fs => (lookupField fs foundAttr).getD (Val.vStr "Not found")
  | none => Val.vStr "Not found"

/-- C1 amended: for every matched item key, matched attribute and row
set, the value-lookup loop returns the raw value of the first row that
matches the item AND contains the attribute field, and the not-found
sentinel only when no item-matching row contains the field. -/
theorem c1_amended (item attr : String) (rows : List Fields) :
    valueLookup item attr rows = valueLookupFirstWithAttr item attr rows := by
  induction rows with
  | nil => rfl
  | cons fs rest ih =>
    unfold valueLookup valueLookupFirstWithAttr
    cases h1 : itemMatchRow item fs <;> cases h2 : hasField fs attr <;>
      simp [List.find?, h1, h2, ih, valueLookupFirstWithAttr]

/-! ## C2: the append operation of the row store -/

/-- C2 counterexample: appending an empty field mapping does not fail
with a validation error — it succeeds, stores a row whose mapping is
empty, and returns id 1; `insert_data_row` performs no validation. -/
theorem c2_counterexample :
    (insert_data_row false "t.csv" [] Store.init).1 = some 1 ∧
    (insert_data_row false "t.csv" [] Store.init).2.rows =
      [{ id := 1, original_filename := "t.csv", row_data := [] }] := by
  refine ⟨rfl, rfl⟩

/-- C2 amended: `insert_data_row` validates nothing — for EVERY field
mapping, empty or containing nulls, a successful call appends one row
with the next sequential id and returns that id; null values are rejected
only by the ingestion entry point before any append happens. -/
theorem c2_amended (fname : String) (fields : Fields) (st : Store) :
    insert_data_row false fname fields st =
      (some st.nextId,
       { nextId := st.nextId + 1,
         rows := st.rows ++ [{ id := st.nextId, original_filename := fname,
                               row_data := fields }] }) ∧
    (batchHasNull [fields] = true →
      upload_csv [false] fname [fields] st = Except.error csvNullMsg) := by
  refine ⟨rfl, fun h => ?_⟩
  unfold upload_csv
  rw [if_pos ?_]
  simpa [batchHasNull] using h

/-- Witness for `c2_amended` at a mapping holding a null value. -/
theorem c2_amended_witness :
    insert_data_row false "t.csv" [("a", Val.vNull)] Store.init =
      (some 1,
       { nextId := 2,
         rows := [{ id := 1, original_filename := "t.csv",
                    row_data := [("a", Val.vNull)] }] }) ∧
    upload_csv [false] "t.csv" [[("a", Val.vNull)]] Store.init =
      Except.error csvNullMsg := by
  have h := c2_amended "t.csv" [("a", Val.vNull)] Store.init
  exact ⟨h.1, h.2 (by decide)⟩

/-! ## C3: all-or-nothing batch ingestion -/

/-- C3, evaluated at the failing input: a fully valid one-record batch
(no nulls anywhere) for which the storage insert fails.  The endpoint
still answers success claiming 1 row stored, while the store is returned
unchanged — zero rows persisted, contradicting the claimed guarantee that
a fully valid batch stores exactly as many rows as records. -/
theorem c3_failing_eval (st : Store) :
    batchHasNull [[("price", Val.vNum 2)]] = false ∧
    upload_csv [true] "b.csv" [[("price", Val.vNum 2)]] st =
      Except.ok (uploadMsg "b.csv" 1, st) := by
  refine ⟨rfl, rfl⟩

/-! ## C4: silent swallowing of storage-level insert failures -/

/-- The loop counter of `upload_csv` counts records, not successful
inserts: whatever the db-failure plan, it ends at the batch length. -/
theorem insertLoop_count (filename : String) (batch : List Fields) (plan : List Bool)
    (st : Store) : (insertLoop filename batch plan st).1 = batch.length := by
  induction batch generalizing plan st with
  | nil => rfl
  | cons fs rest ih => simp [insertLoop, ih]

/-- C4: when `insert_data_row` fails (returns `none`) for a record, the
upload loop still counts the record as inserted — the counter always ends
at the batch length regardless of failures — so here the single insert
fails, the store comes back unchanged, yet the response reports 1 row
stored: the reported count exceeds the number of rows persisted. -/
theorem c4_swallowed_failure (filename : String) (batch : List Fields) (plan : List Bool)
    (st : Store) :
    (insertLoop filename batch plan st).1 = batch.length ∧
    (insert_data_row true "f.csv" [("a", Val.vNum 1)] st).1 = none ∧
    upload_csv [true] "f.csv" [[("a", Val.vNum 1)]] st =
      Except.ok (uploadMsg "f.csv" 1, st) := by
  refine ⟨insertLoop_count filename batch plan st, rfl, rfl⟩

/-! ## C5: order of the attribute match pass -/

/-- Some trigger keyword of one of the four table entries preceding
`product_name` (price, quantity, stock, warehouse) occurs in the
question. -/
def earlyKeywordHit (q : String) : Bool :=
  keywordHit q ["price", "cost", "value"] ||
  keywordHit q ["quantity", "number", "amount"] ||
  keywordHit q ["stock", "inventory", "available"] ||
  keywordHit q ["warehouse", "location", "where"]

/-- C5: the attribute pass scans the keyword table in declared order, so
a question containing `item`, `name` or `product` and no keyword of an
earlier table entry always resolves to `product_name` — and therefore
never to `item_name`, whose keyword list is shadowed completely. -/
theorem c5_attribute_order (q : String)
    (hkw : (substrOf "item" q || substrOf "name" q || substrOf "product" q) = true)
    (hearly : earlyKeywordHit q = false) :
    findAttribute q = some "product_name" ∧ findAttribute q ≠ some "item_name" := by
  have hmain : findAttribute q = some "product_name" := by
    unfold earlyKeywordHit at hearly
    simp only [Bool.or_eq_false_iff] at hearly
    obtain ⟨⟨⟨h1, h2⟩, h3⟩, h4⟩ := hearly
    have h5 : keywordHit q ["product", "item", "name"] = true := by
      cases hi : substrOf "item" q <;> cases hn : substrOf "name" q <;>
        cases hp : substrOf "product" q <;>
        simp [keywordHit, hi, hn, hp] at hkw ⊢
    simp [findAttribute, attributeKeywords, findAttrGo, h1, h2, h3, h4, h5]
  refine ⟨hmain, ?_⟩
  rw [hmain]
  simp

/-- Witness for `c5_attribute_order` at the question `item info`. -/
theorem c5_attribute_order_witness :
    findAttribute "item info" = some "product_name" ∧
    findAttribute "item info" ≠ some "item_name" :=
  c5_attribute_order "item info" (by decide) (by decide)

/-! ## The item-name pass without its accumulator -/

/-- Lowercasing the empty string gives the empty string. -/
theorem lowerStr_empty : lowerStr "" = "" := rfl

/-- The empty pattern is a substring of every character list. -/
theorem strSub_nil (l : List Char) : strSub [] l = true := by
  cases l with
  | nil => rfl
  | cons c rest => simp [strSub, leadsList]

/-- The empty string is a substring of every string (Python `"" in s`). -/
theorem substrOf_empty (s : String) : substrOf "" s = true :=
  strSub_nil s.data

/-- The first row whose inner key scan produces a non-empty item key,
in store order (the matches that actually stop the Python loop). -/
def firstRealMatch (q : String) : List Fields → Option String
  | [] => none
  | fs :: rest =>
    match rowItemMatch q fs with
    | some v => if v = "" then firstRealMatch q rest else some v
    | none => firstRealMatch q rest

/-- Whether some row's inner key scan matches with the empty string. -/
def sawEmptyMatch (q : String) : List Fields → Bool
  | [] => false
  | fs :: rest => (rowItemMatch q fs == some "") || sawEmptyMatch q rest

/-- Accumulator-removal lemma for the item-name loop, for the two
reachable accumulator values `some ""` and `none`. -/
theorem findItemLoop_split (q : String) (rows : List Fields) :
    findItemLoop q (some "") rows =
      (match firstRealMatch q rows with
       | some v => some v
       | none => some "") ∧
    findItemLoop q none rows =
      (match firstRealMatch q rows with
       | some v => some v
       | none => if sawEmptyMatch q rows then some "" else none) := by
  induction rows with
  | nil => exact ⟨rfl, rfl⟩
  | cons fs rest ih =>
    obtain ⟨ih1, ih2⟩ := ih
    constructor
    · unfold findItemLoop firstRealMatch
      cases h : rowItemMatch q fs with
      | some v =>
        by_cases hv : v = ""
        · simp [hv, ih1]
        · simp [hv]
      | none => simpa using ih1
    · unfold findItemLoop firstRealMatch sawEmptyMatch
      cases h : rowItemMatch q fs with
      | some v =>
        by_cases hv : v = ""
        · simp only [hv, ih1, beq_self_eq_true, Bool.true_or, if_true]
        · simp [hv]
      | none => simp [ih2]

/-! ## C6: first-qualifying-match behaviour of the item pass -/

/-- C6 counterexample: the first qualifying (row, field) is the
`item_name` of `rowEmptyName`, whose value (the empty string) is a
substring of the question — the claim says this sets `matched_item_key`
and stops the scan, but the code continues (`if found_item_name:` is
false on the empty string) and the later row wins. -/
theorem c6_counterexample :
    rowItemMatch "apple" rowEmptyName = some "" ∧
    findItemName "apple" [rowEmptyName, rowApple] = some "apple" := by
  refine ⟨rfl, rfl⟩

/-- C6 amended: the scan stops at the first qualifying (row, field) whose
matched value is non-empty; an empty-string match only overwrites the
running `found_item_name` without stopping, so the result is the first
non-empty per-row match if one exists, otherwise the empty string if some
row matched emptily, otherwise no match. -/
theorem c6_amended_characterization (q : String) (rows : List Fields) :
    findItemName q rows =
      (match firstRealMatch q rows with
       | some v => some v
       | none => if sawEmptyMatch q rows then some "" else none) :=
  (findItemLoop_split q rows).2

/-! ## C10: rows whose item name is the empty string -/

/-- C10 counterexample: the first row's `item_name` is the empty string,
so it matches every question — but contrary to the claim a later row CAN
still become the matched item: here the scan continues and returns
`banana`. -/
theorem c10_counterexample :
    lookupField rowEmptyName "item_name" = some (Val.vStr "") ∧
    findItemName "banana" [rowEmptyName, rowBanana] = some "banana" := by
  refine ⟨rfl, rfl⟩

/-- C10 amended: a row whose `item_name` holds the empty string does
match every question (the empty string is a substring of everything) and
sets `found_item_name` to the empty string, but scanning continues: the
final match is the first non-empty match of the remaining rows if any,
and only otherwise the empty string (which downstream truthiness then
treats as no item match). -/
theorem c10_amended (q : String) (r : Fields) (rest : List Fields)
    (hr : lookupField r "item_name" = some (Val.vStr "")) :
    rowItemMatch q r = some "" ∧
    findItemName q (r :: rest) =
      (match firstRealMatch q rest with
       | some v => some v
       | none => some "") := by
  have hm : rowItemMatch q r = some "" := by
    unfold rowItemMatch tryNameKey
    rw [hr]
    simp [lowerStr_empty, substrOf_empty]
  refine ⟨hm, ?_⟩
  unfold findItemName findItemLoop
  simp only [hm, if_pos rfl]
  exact (findItemLoop_split q rest).1

/-- Witness for `c10_amended` on a question matching no other row. -/
theorem c10_amended_witness :
    rowItemMatch "zzz" rowEmptyName = some "" ∧
    findItemName "zzz" [rowEmptyName, rowApple] =
      (match firstRealMatch "zzz" [rowApple] with
       | some v => some v
       | none => some "") :=
  c10_amended "zzz" rowEmptyName [rowApple] (by decide)

/-! ## C7: precedence of response composition -/

/-- Response composition exactly as the spec orders it: generic message
when nothing matched, ask-for-item when only an attribute matched,
ask-for-attribute when only an item matched, value lookup when both
matched. -/
def composeResult (foundItem foundAttr : Option String) (rows : List Fields) : QueryResult :=
  match foundItem, foundAttr with
  | none, none =>
    { matchedItemKey := none, matchedAttribute := none, value := none, answer := genericMsg }
  | none, some attr =>
    { matchedItemKey := none, matchedAttribute := some attr, value := none,
      answer := noItemMsg attr }
  | some item, none =>
    { matchedItemKey := some item, matchedAttribute := none, value := none,
      answer := noAttrMsg item }
  | some item, some attr => lookupAnswer item attr rows

/-- C7: on a non-empty question and non-empty row set, the resolver
composes its response by the strict precedence order of the spec, driven
by the (truthy) item match and the attribute match. -/
theorem c7_precedence (question : String) (rows : List Fields)
    (_hq : question ≠ "") (hrows : rows ≠ []) :
    resolve question rows =
      composeResult (truthyItem (findItemName (lowerStr question) rows))
        (findAttribute (lowerStr question)) rows := by
  cases rows with
  | nil => exact absurd rfl hrows
  | cons fs rest => rfl

/-- Witness for `c7_precedence` on a one-row store. -/
theorem c7_precedence_witness :
    resolve "hello" [[("x", Val.vNum 1)]] =
      composeResult (truthyItem (findItemName (lowerStr "hello") [[("x", Val.vNum 1)]]))
        (findAttribute (lowerStr "hello")) [[("x", Val.vNum 1)]] :=
  c7_precedence "hello" [[("x", Val.vNum 1)]] (by decide) (by decide)

/-! ## C8: totality of the resolver -/

/-- Appending to a non-empty string yields a non-empty string. -/
theorem append_ne_empty (s t : String) (hs : s ≠ "") : s ++ t ≠ "" := by
  cases s with
  | mk l =>
    cases t with
    | mk m =>
      cases l with
      | nil => exact absurd rfl hs
      | cons c cs =>
        intro hc
        have hd : (String.mk (c :: cs) ++ String.mk m).data = ("" : String).data :=
          congrArg String.data hc
        simp [String.data] at hd

/-- The ask-for-item message is never empty. -/
theorem noItemMsg_ne (attr : String) : noItemMsg attr ≠ "" := by
  unfold noItemMsg
  apply append_ne_empty
  apply append_ne_empty
  decide

/-- The ask-for-attribute message is never empty. -/
theorem noAttrMsg_ne (item : String) : noAttrMsg item ≠ "" := by
  unfold noAttrMsg
  apply append_ne_empty
  apply append_ne_empty
  decide

/-- The success message is never empty. -/
theorem successMsg_ne (attr item : String) (v : Val) : successMsg attr item v ≠ "" := by
  unfold successMsg
  apply append_ne_empty
  apply append_ne_empty
  apply append_ne_empty
  apply append_ne_empty
  apply append_ne_empty
  decide

/-- The value-absent message is never empty. -/
theorem notFoundMsg_ne (attr item : String) : notFoundMsg attr item ≠ "" := by
  unfold notFoundMsg
  apply append_ne_empty
  apply append_ne_empty
  apply append_ne_empty
  apply append_ne_empty
  decide

/-- Both outcomes of the value-lookup stage carry a non-empty answer. -/
theorem lookupAnswer_answer_ne (item attr : String) (rows : List Fields) :
    (lookupAnswer item attr rows).answer ≠ "" := by
  unfold lookupAnswer
  by_cases h : valueLookup item attr rows = Val.vStr "Not found"
  · simp only [h, if_pos rfl]
    exact notFoundMsg_ne attr item
  · simp only [if_neg h]
    exact successMsg_ne attr item (valueLookup item attr rows)

/-- Lowercasing a non-empty string yields a non-empty string. -/
theorem lowerStr_ne_empty (s : String) (hs : s ≠ "") : lowerStr s ≠ "" := by
  cases s with
  | mk l =>
    cases l with
    | nil => exact absurd rfl hs
    | cons c cs =>
      intro hc
      have hd : (lowerStr (String.mk (c :: cs))).data = ("" : String).data :=
        congrArg String.data hc
      simp [lowerStr, String.data] at hd

/-- C8: for every non-empty question and every row set — including the
empty set, and rows with absent or non-string name fields — the endpoint
never signals an error: it returns a well-formed result whose user-facing
answer is a non-empty explanatory message. -/
theorem c8_totality (question : String) (rows : List Fields) (hq : question ≠ "") :
    ∃ res : QueryResult, askDataAI question rows = Except.ok res ∧ res.answer ≠ "" := by
  have hlq : lowerStr question ≠ "" := lowerStr_ne_empty question hq
  refine ⟨resolve question rows, ?_, ?_⟩
  · unfold askDataAI
    rw [if_neg hlq]
  · cases rows with
    | nil =>
      have h1 : (resolve question []).answer = noDataMsg := rfl
      rw [h1]; decide
    | cons fs rest =>
      cases hi : truthyItem (findItemName (lowerStr question) (fs :: rest)) with
      | none =>
        cases ha : findAttribute (lowerStr question) with
        | none =>
          simp [resolve, hi, ha]
          decide
        | some attr =>
          simp [resolve, hi, ha]
          exact noItemMsg_ne attr
      | some item =>
        cases ha : findAttribute (lowerStr question) with
        | none =>
          simp [resolve, hi, ha]
          exact noAttrMsg_ne item
        | some attr =>
          simp [resolve, hi, ha]
          exact lookupAnswer_answer_ne item attr (fs :: rest)

/-- Witness for `c8_totality` on an empty store. -/
theorem c8_totality_witness :
    ∃ res : QueryResult, askDataAI "what" [] = Except.ok res ∧ res.answer ≠ "" :=
  c8_totality "what" [] (by decide)

/-! ## C9: round-trip through the store -/

/-- A valid record in the sense of the spec: non-empty field mapping
with no null values. -/
def fieldsValid (fs : Fields) : Bool :=
  !fs.isEmpty && fs.all (fun kv => !(kv.2 == Val.vNull))

/-- Searching a concatenation whose first part has no hit searches the
second part. -/
theorem find_append_of_none {α : Type} (p : α → Bool) (l₁ l₂ : List α)
    (h : ∀ x ∈ l₁, p x = false) : (l₁ ++ l₂).find? p = l₂.find? p := by
  induction l₁ with
  | nil => rfl
  | cons a t ih =>
    have ha := h a (by simp)
    simp only [List.cons_append, List.find?, ha]
    exact ih (fun x hx => h x (by simp [hx]))

/-- C9: appending a valid record and looking the returned id up gets
back exactly the appended field mapping and source label.  The store
well-formedness bound `wfb` (every stored id below the counter) is the
sqlite AUTOINCREMENT invariant, which makes the id lookup unambiguous. -/
theorem c9_roundtrip (fname : String) (fields : Fields) (st : Store)
    (hwf : st.wfb = true) (_hv : fieldsValid fields = true) :
    ∃ rid, (insert_data_row false fname fields st).1 = some rid ∧
      ∃ r, get_data_by_id rid (insert_data_row false fname fields st).2 = some r ∧
        r.row_data = fields ∧ r.original_filename = fname ∧ r.id = rid := by
  refine ⟨st.nextId, rfl, ?_⟩
  refine ⟨({ id := st.nextId, original_filename := fname, row_data := fields } : Row),
    ?_, rfl, rfl, rfl⟩
  have hins : (insert_data_row false fname fields st).2 =
      { nextId := st.nextId + 1,
        rows := st.rows ++ [({ id := st.nextId, original_filename := fname,
                               row_data := fields } : Row)] } := rfl
  rw [hins]
  unfold get_data_by_id
  rw [find_append_of_none]
  · simp [List.find?]
  · intro r hr
    have hlt : r.id < st.nextId := by
      have := List.all_eq_true.mp hwf r hr
      exact of_decide_eq_true this
    simp [Nat.ne_of_lt hlt]

/-- Witness for `c9_roundtrip` on a fresh store. -/
theorem c9_roundtrip_witness :
    ∃ rid, (insert_data_row false "f.csv" [("price", Val.vNum 1)] Store.init).1 = some rid ∧
      ∃ r, get_data_by_id rid (insert_data_row false "f.csv" [("price", Val.vNum 1)] Store.init).2
          = some r ∧
        r.row_data = [("price", Val.vNum 1)] ∧ r.original_filename = "f.csv" ∧ r.id = rid :=
  c9_roundtrip "f.csv" [("price", Val.vNum 1)] Store.init (by decide) (by decide)

end DataUploadQuery
